import Mathlib

/-!
Shallow embedding of the funch-hotel-backend-v2 creation workflows:
the date-overlap checker and override-tier validation, the room-creation
service with its compensating cascade delete, the SEO-metadata creation
service, the room-create controller with its SEO/image fan-out, and the
room-list validation and repository query.  Each definition is translated
from the JavaScript source file named in its doc comment.
-/

namespace FunchHotel

/-- Calendar dates occur in the source as ISO `YYYY-MM-DD` strings that are
parsed with `new Date(...)` and compared numerically.  For date-only ISO
strings that parse order coincides with the lexicographic order on
`(year, month, day)`, so a date is embedded as `y*10000 + m*100 + d`,
which realizes exactly that order. -/
def isoDate (y m d : Nat) : Nat := y * 10000 + m * 100 + d

/-- A date range: the `start_date` / `end_date` field pair carried by season
and override price payloads. -/
structure DateRange where
  start_date : Nat
  end_date : Nat
deriving Repr, DecidableEq

/-- `checkDateOverlap` from services/room/room-create.service.js:
`start1 <= end2 && start2 <= end1` on the parsed dates. -/
def checkDateOverlap (range1 range2 : DateRange) : Bool :=
  decide (range1.start_date ≤ range2.end_date) && decide (range2.start_date ≤ range1.end_date)

/-- One entry of the `override_prices` array of a room-creation payload
(validators/room/room-create.validator.js).  `is_active` is an `Option`
because the JavaScript object field may be absent; the code tests it with
`o.is_active === true` and persists it with `?? true`. -/
structure OverrideInput where
  name : String
  price : Int
  start_date : Nat
  end_date : Nat
  is_promotion : Bool
  note : Option String
  is_active : Option Bool
deriving Repr, DecidableEq

/-- The date range of an override entry. -/
def OverrideInput.range (o : OverrideInput) : DateRange :=
  { start_date := o.start_date, end_date := o.end_date }

/-- The double loop (indices `i < j`) of the custom `override_prices` check in
validators/room/room-create.validator.js: first conflicting pair in input
order, if any. -/
def findActiveOverlapPair : List OverrideInput → Option (OverrideInput × OverrideInput)
  | [] => none
  | o :: rest =>
    match rest.find? (fun p => checkDateOverlap o.range p.range) with
    | some p => some (o, p)
    | none => findActiveOverlapPair rest

/-- The message thrown by the custom `override_prices` check; the JavaScript
template quotes both tier names. -/
def overridePairMessage (a b : OverrideInput) : String :=
  "Active override date ranges overlap: \"" ++ a.name ++ "\" and \"" ++ b.name ++ "\""

/-- The custom `override_prices` validator of
validators/room/room-create.validator.js: passes (`none`) when fewer than two
entries; otherwise filters to entries with `is_active === true` and reports
the first overlapping pair. -/
def validateActiveOverrideNoOverlap (overrides : List OverrideInput) : Option String :=
  if overrides.length < 2 then none
  else
    match findActiveOverlapPair (overrides.filter (fun o => o.is_active == some true)) with
    | some (a, b) => some (overridePairMessage a b)
    | none => none

/-- The ad-hoc error object produced by the overlap helpers in
services/room/room-create.service.js. -/
structure OverlapError where
  message : String
  code : String
  statusCode : Nat
deriving Repr, DecidableEq

/-- A pre-existing override row as selected by
`getExistingOverridePrices` (id, name, start_date, end_date; the query
already filters `is_active = true`). -/
structure ExistingOverride where
  name : String
  start_date : Nat
  end_date : Nat
deriving Repr, DecidableEq

/-- The date range of an existing override row. -/
def ExistingOverride.range (e : ExistingOverride) : DateRange :=
  { start_date := e.start_date, end_date := e.end_date }

/-- The message of the `OVERRIDE_OVERLAP` error; the JavaScript template
quotes both names and the two date ranges. -/
def overrideOverlapMessage (n : OverrideInput) (e : ExistingOverride) : String :=
  "Override price \"" ++ n.name ++ "\" overlaps with existing override \"" ++ e.name ++ "\""

/-- The nested loops of `checkOverrideOverlap`
(services/room/room-create.service.js): for each new active override, the
first existing override it overlaps. -/
def checkOverrideOverlapAux : List OverrideInput → List ExistingOverride → Option OverlapError
  | [], _ => none
  | n :: rest, existingOverrides =>
    match existingOverrides.find? (fun e => checkDateOverlap n.range e.range) with
    | some e =>
      some { message := overrideOverlapMessage n e, code := "OVERRIDE_OVERLAP", statusCode := 409 }
    | none => checkOverrideOverlapAux rest existingOverrides

/-- `checkOverrideOverlap` from services/room/room-create.service.js: returns
`none` when no new overrides; otherwise only new overrides with
`is_active === true` are checked against the existing (active) ones. -/
def checkOverrideOverlap (newOverrides : List OverrideInput)
    (existingOverrides : List ExistingOverride) : Option OverlapError :=
  if newOverrides.isEmpty then none
  else
    checkOverrideOverlapAux (newOverrides.filter (fun o => o.is_active == some true))
      existingOverrides

/-- Claim C5: for ranges with `start <= end`, `checkDateOverlap` returns true
iff `a.start <= b.end` and `b.start <= a.end`; it is symmetric and reflexive;
ranges sharing only a boundary day ([2024-01-01, 2024-01-05] and
[2024-01-05, 2024-01-10]) overlap, and adjacent disjoint ranges
([2024-01-01, 2024-01-04] and [2024-01-05, 2024-01-10]) do not. -/
theorem checkDateOverlap_characterization :
    (∀ a b : DateRange, a.start_date ≤ a.end_date → b.start_date ≤ b.end_date →
      (checkDateOverlap a b = true ↔ (a.start_date ≤ b.end_date ∧ b.start_date ≤ a.end_date))
      ∧ checkDateOverlap a b = checkDateOverlap b a
      ∧ checkDateOverlap a a = true)
    ∧ checkDateOverlap ⟨isoDate 2024 1 1, isoDate 2024 1 5⟩
        ⟨isoDate 2024 1 5, isoDate 2024 1 10⟩ = true
    ∧ checkDateOverlap ⟨isoDate 2024 1 1, isoDate 2024 1 4⟩
        ⟨isoDate 2024 1 5, isoDate 2024 1 10⟩ = false := by
  refine ⟨fun a b ha hb => ⟨?_, ?_, ?_⟩, by decide, by decide⟩
  · simp [checkDateOverlap]
  · show (decide _ && decide _) = (decide _ && decide _)
    exact Bool.and_comm _ _
  · simp [checkDateOverlap, ha]

/-- Witness for claim C5 at concrete single-day-capable ranges. -/
theorem checkDateOverlap_characterization_witness :
    ((⟨isoDate 2024 3 1, isoDate 2024 3 4⟩ : DateRange).start_date ≤ isoDate 2024 3 4)
    ∧ checkDateOverlap ⟨isoDate 2024 3 1, isoDate 2024 3 4⟩ ⟨isoDate 2024 3 4, isoDate 2024 3 9⟩
        = checkDateOverlap ⟨isoDate 2024 3 4, isoDate 2024 3 9⟩ ⟨isoDate 2024 3 1, isoDate 2024 3 4⟩ :=
  ⟨by decide,
    (checkDateOverlap_characterization.1 ⟨isoDate 2024 3 1, isoDate 2024 3 4⟩
      ⟨isoDate 2024 3 4, isoDate 2024 3 9⟩ (by decide) (by decide)).2.1⟩

/-- Claim C6: only overrides with `is_active = true` participate in the
override no-overlap check.  A pair where one entry is inactive passes the
room-create validator in either order; a pair of active entries with
overlapping (for instance identical) ranges is rejected with a message naming
both tiers; on the service side every reported conflict carries the code
`OVERRIDE_OVERLAP`, and an inactive new override is never reported. -/
theorem override_overlap_active_only :
    (∀ a b : OverrideInput, a.is_active = some false →
      validateActiveOverrideNoOverlap [a, b] = none
      ∧ validateActiveOverrideNoOverlap [b, a] = none)
    ∧ (∀ a b : OverrideInput, a.is_active = some true → b.is_active = some true →
        checkDateOverlap a.range b.range = true →
        validateActiveOverrideNoOverlap [a, b] = some (overridePairMessage a b))
    ∧ (∀ (newOverrides : List OverrideInput) (existingOverrides : List ExistingOverride)
        (err : OverlapError), checkOverrideOverlap newOverrides existingOverrides = some err →
        err.code = "OVERRIDE_OVERLAP")
    ∧ (∀ (a : OverrideInput) (existingOverrides : List ExistingOverride),
        a.is_active = some false → checkOverrideOverlap [a] existingOverrides = none) := by
  refine ⟨?_, ?_, ?_, ?_⟩
  · intro a b ha
    constructor
    · cases hb : b.is_active == some true <;>
        simp [validateActiveOverrideNoOverlap, findActiveOverlapPair, ha, hb]
    · cases hb : b.is_active == some true <;>
        simp [validateActiveOverrideNoOverlap, findActiveOverlapPair, ha, hb]
  · intro a b ha hb hov
    simp [validateActiveOverrideNoOverlap, findActiveOverlapPair, ha, hb, hov]
  · intro newOverrides existingOverrides err h
    by_cases he : newOverrides.isEmpty
    · simp [checkOverrideOverlap, he] at h
    · simp only [checkOverrideOverlap, he, if_false] at h
      generalize newOverrides.filter (fun o => o.is_active == some true) = l at h
      induction l with
      | nil => simp [checkOverrideOverlapAux] at h
      | cons n rest ih =>
        simp only [checkOverrideOverlapAux] at h
        cases hf : existingOverrides.find? (fun e => checkDateOverlap n.range e.range) with
        | none => rw [hf] at h; exact ih h
        | some e =>
          rw [hf] at h
          cases h
          rfl
  · intro a existingOverrides ha
    simp [checkOverrideOverlap, checkOverrideOverlapAux, ha]

/-- Witness for claim C6: an inactive/active pair over identical dates passes,
the same pair with both entries active is rejected naming both tiers. -/
theorem override_overlap_active_only_witness :
    validateActiveOverrideNoOverlap
      [{ name := "A", price := 100, start_date := isoDate 2025 1 1,
         end_date := isoDate 2025 1 5, is_promotion := false, note := none,
         is_active := some false },
       { name := "B", price := 200, start_date := isoDate 2025 1 1,
         end_date := isoDate 2025 1 5, is_promotion := true, note := none,
         is_active := some true }] = none
    ∧ validateActiveOverrideNoOverlap
      [{ name := "A", price := 100, start_date := isoDate 2025 1 1,
         end_date := isoDate 2025 1 5, is_promotion := false, note := none,
         is_active := some true },
       { name := "B", price := 200, start_date := isoDate 2025 1 1,
         end_date := isoDate 2025 1 5, is_promotion := true, note := none,
         is_active := some true }] =
      some (overridePairMessage
        { name := "A", price := 100, start_date := isoDate 2025 1 1,
          end_date := isoDate 2025 1 5, is_promotion := false, note := none,
          is_active := some true }
        { name := "B", price := 200, start_date := isoDate 2025 1 1,
          end_date := isoDate 2025 1 5, is_promotion := true, note := none,
          is_active := some true }) :=
  ⟨(override_overlap_active_only.1
      { name := "A", price := 100, start_date := isoDate 2025 1 1,
        end_date := isoDate 2025 1 5, is_promotion := false, note := none,
        is_active := some false }
      { name := "B", price := 200, start_date := isoDate 2025 1 1,
        end_date := isoDate 2025 1 5, is_promotion := true, note := none,
        is_active := some true } rfl).1,
   override_overlap_active_only.2.1
      { name := "A", price := 100, start_date := isoDate 2025 1 1,
        end_date := isoDate 2025 1 5, is_promotion := false, note := none,
        is_active := some true }
      { name := "B", price := 200, start_date := isoDate 2025 1 1,
        end_date := isoDate 2025 1 5, is_promotion := true, note := none,
        is_active := some true } rfl rfl (by decide)⟩

/-- A row of the `hotels` table, restricted to the columns the embedded
operations read (`id, name_th, name_en`). -/
structure HotelRow where
  id : String
  name_th : String
  name_en : String
deriving Repr, DecidableEq

/-- The `room_data` object of a room-creation payload.  `is_active` is
optional in the JavaScript object and persisted with `?? false`. -/
structure RoomData where
  name_th : String
  name_en : String
  room_size : Nat
  description_th : String
  description_en : String
  max_adult : Nat
  max_children : Nat
  total_room : Nat
  hotel_id : String
  is_active : Option Bool
deriving Repr, DecidableEq

/-- A row of the `rooms` table as written by `createRoom`
(repositories/room/room-create.repository.js); the generated uuid is the
`id` field, `create_at` is omitted as no embedded operation reads it. -/
structure RoomRow where
  id : String
  name_th : String
  name_en : String
  room_size : Nat
  description_th : String
  description_en : String
  max_adult : Nat
  max_children : Nat
  total_room : Nat
  hotel_id : String
  is_active : Bool
deriving Repr, DecidableEq

/-- The seven weekday price columns shared by base and season price rows. -/
structure WeeklyPrices where
  price_sun : Int
  price_mon : Int
  price_tue : Int
  price_wed : Int
  price_thu : Int
  price_fri : Int
  price_sat : Int
deriving Repr, DecidableEq

/-- A row of `room_options_map` (its generated uuid is immaterial to every
embedded operation and omitted). -/
structure OptionMapRow where
  room_id : String
  room_option_id : String
deriving Repr, DecidableEq

/-- A row of `room_base_prices`. -/
structure BasePriceRow where
  room_id : String
  prices : WeeklyPrices
deriving Repr, DecidableEq

/-- One entry of the `season_base_prices` array of a room-creation payload. -/
structure SeasonInput where
  name : String
  start_date : Nat
  end_date : Nat
  prices : WeeklyPrices
deriving Repr, DecidableEq

/-- A row of `room_season_base_prices`. -/
structure SeasonPriceRow where
  room_id : String
  name : String
  start_date : Nat
  end_date : Nat
  prices : WeeklyPrices
deriving Repr, DecidableEq

/-- A row of `room_override_prices`; `is_active` is stored with `?? true`. -/
structure OverridePriceRow where
  room_id : String
  name : String
  price : Int
  start_date : Nat
  end_date : Nat
  is_promotion : Bool
  note : Option String
  is_active : Bool
deriving Repr, DecidableEq

/-- A row of `seo_metadata`. -/
structure SeoRow where
  id : String
  page_type : String
  page_id : Option String
  slug : String
  lang : String
  title : String
  description : String
  og_image : Option String
deriving Repr, DecidableEq

/-- A row of `image_assets`. -/
structure ImageRow where
  content_type : String
  content_id : String
  url : String
  alt : Option String
  caption : Option String
  is_cover : Bool
  sort_order : Nat
deriving Repr, DecidableEq

/-- The entity store: one list per table touched by the embedded operations.
`room_options` holds the ids of the amenity catalog table. -/
structure Store where
  hotels : List HotelRow := []
  rooms : List RoomRow := []
  room_options : List String := []
  room_options_map : List OptionMapRow := []
  room_base_prices : List BasePriceRow := []
  room_season_base_prices : List SeasonPriceRow := []
  room_override_prices : List OverridePriceRow := []
  seo_metadata : List SeoRow := []
  image_assets : List ImageRow := []
deriving Repr, DecidableEq

/-- The table list of `deleteRoomCascade`, in its source order ("Order
matters due to foreign key constraints"). -/
def cascadeTables : List String :=
  ["room_override_prices", "room_season_base_prices", "room_base_prices",
   "room_options_map", "seo_metadata", "image_assets", "rooms"]

/-- One iteration of the `deleteRoomCascade` loop: `seo_metadata` rows are
matched on `page_type = "room"` and `page_id`, `image_assets` rows on
`content_type = "room"` and `content_id`, `rooms` on `id`, and every other
table on `room_id`. -/
def deleteFromTable (s : Store) (table roomId : String) : Store :=
  if table == "seo_metadata" then
    { s with seo_metadata := s.seo_metadata.filter (fun r => !(r.page_type == "room" && r.page_id == some roomId)) }
  else if table == "image_assets" then
    { s with image_assets := s.image_assets.filter (fun r => !(r.content_type == "room" && r.content_id == roomId)) }
  else if table == "rooms" then
    { s with rooms := s.rooms.filter (fun r => !(r.id == roomId)) }
  else if table == "room_override_prices" then
    { s with room_override_prices := s.room_override_prices.filter (fun r => !(r.room_id == roomId)) }
  else if table == "room_season_base_prices" then
    { s with room_season_base_prices := s.room_season_base_prices.filter (fun r => !(r.room_id == roomId)) }
  else if table == "room_base_prices" then
    { s with room_base_prices := s.room_base_prices.filter (fun r => !(r.room_id == roomId)) }
  else if table == "room_options_map" then
    { s with room_options_map := s.room_options_map.filter (fun r => !(r.room_id == roomId)) }
  else s

/-- The loop of `deleteRoomCascade`; `failAt` injects a store failure at the
delete of the table with that index, at which point the surrounding `catch`
swallows the error ("Don't throw - this is cleanup") and no further deletes
run. -/
def deleteRoomCascadeAux (roomId : String) :
    List String → Nat → Option Nat → Store → Store
  | [], _, _, s => s
  | t :: rest, idx, failAt, s =>
    if failAt == some idx then s
    else deleteRoomCascadeAux roomId rest (idx + 1) failAt (deleteFromTable s t roomId)

/-- `deleteRoomCascade` from repositories/room/room-create.repository.js:
best-effort deletion of every row related to `roomId`, never reporting an
error to its caller. -/
def deleteRoomCascade (failAt : Option Nat) (s : Store) (roomId : String) : Store :=
  deleteRoomCascadeAux roomId cascadeTables 0 failAt s

/-- The ad-hoc error objects of the source: a message plus optional `code`
and `statusCode` fields. -/
structure AppError where
  message : String
  code : Option String := none
  statusCode : Option Nat := none
deriving Repr, DecidableEq

/-- `hotelExists` from repositories/room/room-create.repository.js. -/
def hotelExists (s : Store) (hotelId : String) : Bool :=
  s.hotels.any (fun h => h.id == hotelId)

/-- `roomNameExists`: some room of the hotel already has the submitted Thai
or English name. -/
def roomNameExists (s : Store) (nameTh nameEn hotelId : String) : Bool :=
  s.rooms.any (fun r => r.hotel_id == hotelId && (r.name_th == nameTh || r.name_en == nameEn))

/-- `validateRoomOptionIds`: vacuously true for an empty list, otherwise the
number of catalog rows among the submitted ids must equal the number of
submitted ids. -/
def validateRoomOptionIds (s : Store) (optionIds : List String) : Bool :=
  if optionIds.isEmpty then true
  else (s.room_options.filter (fun oid => optionIds.contains oid)).length == optionIds.length

/-- One entry of the `seo_data` array of a creation payload. -/
structure SeoInput where
  slug : String
  lang : String
  title : String
  description : String
  og_image : Option String := none
deriving Repr, DecidableEq

/-- One entry of the `images` array of a creation payload. -/
structure ImageInput where
  url : String
  alt : Option String := none
  caption : Option String := none
  is_cover : Bool
  sort_order : Nat := 0
deriving Repr, DecidableEq

/-- The aggregate room-creation request body (POST /api/room). -/
structure RoomCreateRequest where
  room_data : RoomData
  room_option_ids : List String := []
  base_price : WeeklyPrices
  season_base_prices : List SeasonInput := []
  override_prices : List OverrideInput := []
  seo_data : List SeoInput := []
  images : List ImageInput := []
deriving Repr, DecidableEq

/-- Injected outcomes of the store writes performed by the room-create
service.  The Supabase client surfaces a write failure as an error result;
`some e` makes the corresponding insert fail with `e` (for the room insert,
`e` stands for the error after `handleRoomError` translation) while leaving
the table unchanged.  `cascadeFailAt` injects a failure inside the
compensating cascade delete. -/
structure RoomCreateOutcomes where
  roomInsertError : Option AppError := none
  optionsInsertError : Option AppError := none
  basePriceError : Option AppError := none
  seasonInsertError : Option AppError := none
  overrideInsertError : Option AppError := none
  cascadeFailAt : Option Nat := none
deriving Repr, DecidableEq

/-- The `rooms` row built by `createRoom` in
repositories/room/room-create.repository.js (`is_active: roomData.is_active
?? false`). -/
def mkRoomRow (roomData : RoomData) (newRoomId : String) : RoomRow :=
  { id := newRoomId, name_th := roomData.name_th, name_en := roomData.name_en,
    room_size := roomData.room_size, description_th := roomData.description_th,
    description_en := roomData.description_en, max_adult := roomData.max_adult,
    max_children := roomData.max_children, total_room := roomData.total_room,
    hotel_id := roomData.hotel_id, is_active := roomData.is_active.getD false }

/-- The `room_options_map` rows built by `createRoomOptions`. -/
def mkOptionRows (roomId : String) (optionIds : List String) : List OptionMapRow :=
  optionIds.map (fun optionId => { room_id := roomId, room_option_id := optionId })

/-- The `room_base_prices` row built by `createBasePrice`. -/
def mkBasePriceRow (roomId : String) (basePrice : WeeklyPrices) : BasePriceRow :=
  { room_id := roomId, prices := basePrice }

/-- The `room_season_base_prices` rows built by `createSeasonBasePrices`. -/
def mkSeasonRows (roomId : String) (seasonPrices : List SeasonInput) : List SeasonPriceRow :=
  seasonPrices.map (fun season =>
    { room_id := roomId, name := season.name, start_date := season.start_date,
      end_date := season.end_date, prices := season.prices })

/-- The `room_override_prices` rows built by `createOverridePrices`
(`is_active: override.is_active ?? true`, `note: override.note || null`). -/
def mkOverrideRows (roomId : String) (overridePrices : List OverrideInput) :
    List OverridePriceRow :=
  overridePrices.map (fun override =>
    { room_id := roomId, name := override.name, price := override.price,
      start_date := override.start_date, end_date := override.end_date,
      is_promotion := override.is_promotion, note := override.note,
      is_active := override.is_active.getD true })

/-- The value returned by `createRoom` on success (SEO and images are handled
by the controller). -/
structure RoomResult where
  room : RoomRow
  base_price : BasePriceRow
  season_base_prices : List SeasonPriceRow
  override_prices : List OverridePriceRow
  room_option_ids : List String
deriving Repr, DecidableEq

/-- `createRoom` from services/room/room-create.service.js: validate hotel,
name uniqueness and option ids; insert the room, its option links, the
mandatory base price, then season and override tiers; on any failure after
the room row exists, run `deleteRoomCascade` and rethrow the original
error. -/
def roomCreateService (oc : RoomCreateOutcomes) (req : RoomCreateRequest)
    (newRoomId : String) (s : Store) : Except AppError RoomResult × Store :=
  if !(hotelExists s req.room_data.hotel_id) then
    (.error { message := "Hotel not found", code := some "HOTEL_NOT_FOUND",
              statusCode := some 404 }, s)
  else if roomNameExists s req.room_data.name_th req.room_data.name_en
      req.room_data.hotel_id then
    (.error { message := "Room name already exists in this hotel",
              code := some "ROOM_EXISTS", statusCode := some 409 }, s)
  else if !req.room_option_ids.isEmpty
      && !(validateRoomOptionIds s req.room_option_ids) then
    (.error { message := "One or more room option IDs are invalid",
              code := some "INVALID_OPTION_ID", statusCode := some 400 }, s)
  else
    match oc.roomInsertError with
    | some e => (.error e, s)
    | none =>
      let newRoom := mkRoomRow req.room_data newRoomId
      let s1 : Store := { s with rooms := s.rooms ++ [newRoom] }
      match (if req.room_option_ids.isEmpty then none else oc.optionsInsertError) with
      | some e => (.error e, deleteRoomCascade oc.cascadeFailAt s1 newRoomId)
      | none =>
        let s2 : Store := { s1 with room_options_map := s1.room_options_map ++ mkOptionRows newRoomId req.room_option_ids }
        match oc.basePriceError with
        | some e => (.error e, deleteRoomCascade oc.cascadeFailAt s2 newRoomId)
        | none =>
          let basePriceRow := mkBasePriceRow newRoomId req.base_price
          let s3 : Store := { s2 with room_base_prices := s2.room_base_prices ++ [basePriceRow] }
          match (if req.season_base_prices.isEmpty then none else oc.seasonInsertError) with
          | some e => (.error e, deleteRoomCascade oc.cascadeFailAt s3 newRoomId)
          | none =>
            let seasonRows := mkSeasonRows newRoomId req.season_base_prices
            let s4 : Store := { s3 with room_season_base_prices := s3.room_season_base_prices ++ seasonRows }
            match (if req.override_prices.isEmpty then none else oc.overrideInsertError) with
            | some e => (.error e, deleteRoomCascade oc.cascadeFailAt s4 newRoomId)
            | none =>
              let overrideRows := mkOverrideRows newRoomId req.override_prices
              let s5 : Store := { s4 with room_override_prices := s4.room_override_prices ++ overrideRows }
              (.ok { room := newRoom, base_price := basePriceRow,
                     season_base_prices := seasonRows,
                     override_prices := overrideRows,
                     room_option_ids := req.room_option_ids }, s5)

/-- Filtering with a predicate after filtering with its negation leaves
nothing. -/
theorem filter_not_filter {α : Type} (p : α → Bool) (l : List α) :
    (l.filter (fun a => !(p a))).filter p = [] := by
  induction l with
  | nil => rfl
  | cons a t ih => cases h : p a <;> simp [List.filter_cons, h, ih]

/-- A completed cascade delete (no injected failure) leaves no row keyed to
the room id in any of the seven tables it visits. -/
theorem deleteRoomCascade_none_clears (s : Store) (roomId : String) :
    ((deleteRoomCascade none s roomId).rooms.filter (fun r => r.id == roomId) = [])
    ∧ ((deleteRoomCascade none s roomId).room_options_map.filter
        (fun r => r.room_id == roomId) = [])
    ∧ ((deleteRoomCascade none s roomId).room_base_prices.filter
        (fun r => r.room_id == roomId) = [])
    ∧ ((deleteRoomCascade none s roomId).room_season_base_prices.filter
        (fun r => r.room_id == roomId) = [])
    ∧ ((deleteRoomCascade none s roomId).room_override_prices.filter
        (fun r => r.room_id == roomId) = [])
    ∧ ((deleteRoomCascade none s roomId).seo_metadata.filter
        (fun r => r.page_type == "room" && r.page_id == some roomId) = []) := by
  simp [deleteRoomCascade, cascadeTables, deleteRoomCascadeAux, deleteFromTable,
    filter_not_filter]

/-- Claim C1: when the mandatory base-price write fails after the room row
was written, `createRoom` deletes every record it created — afterwards no
room row, option-link row, or price-tier row for the new room id remains
(when the compensation itself does not fail) — and for every possible
compensation outcome the error returned to the caller is the original
base-price failure, never an error from the compensation (whose own failures
are swallowed inside `deleteRoomCascade`). -/
theorem createRoom_basePrice_failure_rolls_back
    (oc : RoomCreateOutcomes) (req : RoomCreateRequest) (newRoomId : String)
    (s : Store) (e : AppError)
    (hHotel : hotelExists s req.room_data.hotel_id = true)
    (hName : roomNameExists s req.room_data.name_th req.room_data.name_en
      req.room_data.hotel_id = false)
    (hOpts : validateRoomOptionIds s req.room_option_ids = true)
    (hRoom : oc.roomInsertError = none)
    (hOptIns : oc.optionsInsertError = none)
    (hBase : oc.basePriceError = some e) :
    (roomCreateService oc req newRoomId s).1 = .error e
    ∧ (oc.cascadeFailAt = none →
        (roomCreateService oc req newRoomId s).2.rooms.filter
          (fun r => r.id == newRoomId) = []
        ∧ (roomCreateService oc req newRoomId s).2.room_options_map.filter
          (fun r => r.room_id == newRoomId) = []
        ∧ (roomCreateService oc req newRoomId s).2.room_base_prices.filter
          (fun r => r.room_id == newRoomId) = []
        ∧ (roomCreateService oc req newRoomId s).2.room_season_base_prices.filter
          (fun r => r.room_id == newRoomId) = []
        ∧ (roomCreateService oc req newRoomId s).2.room_override_prices.filter
          (fun r => r.room_id == newRoomId) = []) := by
  constructor
  · simp [roomCreateService, hHotel, hName, hOpts, hRoom, hOptIns, hBase]
  · intro hc
    have h2 : (roomCreateService oc req newRoomId s).2 =
        deleteRoomCascade none
          { s with rooms := s.rooms ++ [mkRoomRow req.room_data newRoomId], room_options_map := s.room_options_map ++ mkOptionRows newRoomId req.room_option_ids }
          newRoomId := by
      simp [roomCreateService, hHotel, hName, hOpts, hRoom, hOptIns, hBase, hc]
    rw [h2]
    have h := deleteRoomCascade_none_clears
      { s with rooms := s.rooms ++ [mkRoomRow req.room_data newRoomId], room_options_map := s.room_options_map ++ mkOptionRows newRoomId req.room_option_ids }
      newRoomId
    exact ⟨h.1, h.2.1, h.2.2.1, h.2.2.2.1, h.2.2.2.2.1⟩

/-- A store with one hotel, used by the concrete witnesses. -/
def sampleStore : Store := { hotels := [{ id := "h1", name_th := "HT", name_en := "Hotel One" }] }

/-- A concrete room payload for the witnesses. -/
def sampleRoomData : RoomData :=
  { name_th := "RoomT", name_en := "RoomE", room_size := 30, description_th := "dth",
    description_en := "den", max_adult := 2, max_children := 1, total_room := 5,
    hotel_id := "h1", is_active := some true }

/-- A concrete weekly price object for the witnesses. -/
def samplePrices : WeeklyPrices :=
  { price_sun := 100, price_mon := 100, price_tue := 100, price_wed := 100,
    price_thu := 100, price_fri := 100, price_sat := 100 }

/-- A concrete store error for the injected base-price failure. -/
def sampleBaseFailure : AppError :=
  { message := "Required field is missing", code := some "MISSING_FIELD" }

/-- A concrete room-creation request for the witnesses. -/
def sampleReq : RoomCreateRequest := { room_data := sampleRoomData, base_price := samplePrices }

/-- Outcomes injecting only a base-price write failure. -/
def sampleOutcomes : RoomCreateOutcomes := { basePriceError := some sampleBaseFailure }

/-- Witness for claim C1 on a concrete request whose base-price write fails. -/
theorem createRoom_basePrice_failure_rolls_back_witness :
    (hotelExists sampleStore sampleRoomData.hotel_id = true
      ∧ sampleOutcomes.basePriceError = some sampleBaseFailure)
    ∧ (roomCreateService sampleOutcomes sampleReq "r1" sampleStore).1
        = Except.error sampleBaseFailure
    ∧ (roomCreateService sampleOutcomes sampleReq "r1" sampleStore).2.rooms.filter
        (fun r => r.id == "r1") = []
    ∧ (roomCreateService sampleOutcomes sampleReq "r1" sampleStore).2.room_base_prices.filter
        (fun r => r.room_id == "r1") = [] :=
  ⟨⟨by decide, rfl⟩,
   (createRoom_basePrice_failure_rolls_back sampleOutcomes sampleReq "r1" sampleStore
      sampleBaseFailure (by decide) (by decide) (by decide) rfl rfl rfl).1,
   ((createRoom_basePrice_failure_rolls_back sampleOutcomes sampleReq "r1" sampleStore
      sampleBaseFailure (by decide) (by decide) (by decide) rfl rfl rfl).2 rfl).1,
   ((createRoom_basePrice_failure_rolls_back sampleOutcomes sampleReq "r1" sampleStore
      sampleBaseFailure (by decide) (by decide) (by decide) rfl rfl rfl).2 rfl).2.2.1⟩

/-- JavaScript `String.prototype.toLowerCase`, over the characters (the
slugs and text of this API are ASCII). -/
def lowerString (s : String) : String := ⟨s.data.map Char.toLower⟩

/-- ASCII whitespace, as stripped by JavaScript `String.prototype.trim`. -/
def isWsChar (c : Char) : Bool := c == ' ' || c == '\t' || c == '\n' || c == '\r'

/-- JavaScript `String.prototype.trim`: drop surrounding whitespace. -/
def trimString (s : String) : String :=
  ⟨((s.data.dropWhile isWsChar).reverse.dropWhile isWsChar).reverse⟩

/-- The argument object of `seoMetadataCreateService.create`
(services/seo/seo-metadata-create.service.js). -/
structure SeoCreateInput where
  page_type : String
  page_id : Option String := none
  slug : String
  lang : String
  title : String
  description : String
  og_image : Option String := none
deriving Repr, DecidableEq

/-- `seoMetadataExistsBySlug` from
repositories/seo/seo-metadata-create.repository.js on the create path (no
excluded id): some row matches the `page_type`, the `slug` and the `lang`. -/
def seoMetadataExistsBySlug (s : Store) (pageType slug lang : String) : Bool :=
  s.seo_metadata.any (fun r => r.page_type == pageType && r.slug == slug && r.lang == lang)

/-- The JavaScript `seoData.og_image?.trim() || null`: a missing value stays
missing and a value trimming to the empty string becomes null. -/
def cleanOgImage (ogImage : Option String) : Option String :=
  match ogImage with
  | none => none
  | some o => if trimString o == "" then none else some (trimString o)

/-- `createSeoMetadata` from services/seo/seo-metadata-create.service.js:
normalize the payload (`slug.toLowerCase().trim()`, trimmed title and
description), reject with `SLUG_EXISTS`/409 when the (page_type, slug, lang)
combination already exists, otherwise insert the cleaned record (the
generated id is `newId`).  The JavaScript conflict message interpolates the
slug, page type and language. -/
def createSeoMetadata (input : SeoCreateInput) (newId : String) (s : Store) :
    Except AppError SeoRow × Store :=
  let cleaned : SeoRow :=
    { id := newId, page_type := input.page_type, page_id := input.page_id,
      slug := trimString (lowerString input.slug), lang := input.lang,
      title := trimString input.title, description := trimString input.description,
      og_image := cleanOgImage input.og_image }
  if seoMetadataExistsBySlug s cleaned.page_type cleaned.slug cleaned.lang then
    (.error { message := "This slug already exists for this page type and language", code := some "SLUG_EXISTS", statusCode := some 409 }, s)
  else
    (.ok cleaned, { s with seo_metadata := s.seo_metadata ++ [cleaned] })

/-- A store holding one SEO record (`page_type = "room"`, slug `deluxe`,
language `th`), for the C7 counterexample. -/
def c7Store : Store :=
  { seo_metadata := [{ id := "s1", page_type := "room", page_id := some "r9",
                       slug := "deluxe", lang := "th", title := "TH title",
                       description := "TH desc", og_image := none }] }

/-- Counterexample to claim C7 as stated: an existing record of the same
page type already uses the slug `deluxe` (in language `th`), yet creating a
second record with the same page type and slug in language `en` is accepted
and written — the duplicate check also filters on `lang`, so a same-slug
record in another language is not a conflict. -/
theorem createSeoMetadata_cross_lang_accepted :
    (createSeoMetadata { page_type := "room", page_id := some "r10", slug := "deluxe", lang := "en", title := "EN title", description := "EN desc" } "s2" c7Store).1
      = Except.ok { id := "s2", page_type := "room", page_id := some "r10", slug := "deluxe", lang := "en", title := "EN title", description := "EN desc", og_image := none }
    ∧ ((createSeoMetadata { page_type := "room", page_id := some "r10", slug := "deluxe", lang := "en", title := "EN title", description := "EN desc" } "s2" c7Store).2.seo_metadata.length
      = 2) := by
  constructor
  · rfl
  · rfl

/-- Claim C7 (amended): an SEO creation is rejected as a `SLUG_EXISTS`
conflict with status 409 and nothing written exactly when some existing
record matches the page type, the normalized slug and the language of the
submission; a same-type same-slug record in a different language does not
block the creation. -/
theorem createSeoMetadata_slug_conflict_same_lang
    (input : SeoCreateInput) (newId : String) (s : Store)
    (hex : seoMetadataExistsBySlug s input.page_type (trimString (lowerString input.slug)) input.lang
      = true) :
    (createSeoMetadata input newId s).1
      = Except.error { message := "This slug already exists for this page type and language", code := some "SLUG_EXISTS", statusCode := some 409 }
    ∧ (createSeoMetadata input newId s).2 = s := by
  constructor <;> simp [createSeoMetadata, hex]

/-- Witness for the amended claim C7: the same slug in the same language and
page type is rejected and nothing is written. -/
theorem createSeoMetadata_slug_conflict_same_lang_witness :
    seoMetadataExistsBySlug c7Store "room" (trimString (lowerString "deluxe")) "th" = true
    ∧ (createSeoMetadata { page_type := "room", page_id := some "r10", slug := "deluxe", lang := "th", title := "TH title two", description := "TH desc two" } "s3" c7Store).1
      = Except.error { message := "This slug already exists for this page type and language", code := some "SLUG_EXISTS", statusCode := some 409 }
    ∧ (createSeoMetadata { page_type := "room", page_id := some "r10", slug := "deluxe", lang := "th", title := "TH title two", description := "TH desc two" } "s3" c7Store).2
      = c7Store :=
  ⟨by decide,
   (createSeoMetadata_slug_conflict_same_lang
      { page_type := "room", page_id := some "r10", slug := "deluxe", lang := "th",
        title := "TH title two", description := "TH desc two" } "s3" c7Store (by decide)).1,
   (createSeoMetadata_slug_conflict_same_lang
      { page_type := "room", page_id := some "r10", slug := "deluxe", lang := "th",
        title := "TH title two", description := "TH desc two" } "s3" c7Store (by decide)).2⟩

/-- Claim C10: a successful SEO creation stores the submitted slug lowercased
and trimmed, and the duplicate check runs on that normalized slug, so a
second submission for the same page type and language whose slug normalizes
to the same string is rejected as `SLUG_EXISTS` with nothing written. -/
theorem createSeoMetadata_normalizes_slug
    (input1 input2 : SeoCreateInput) (id1 id2 : String) (s s1 : Store) (r1 : SeoRow)
    (h1 : createSeoMetadata input1 id1 s = (Except.ok r1, s1))
    (hpt : input2.page_type = input1.page_type)
    (hlang : input2.lang = input1.lang)
    (hslug : trimString (lowerString input2.slug) = trimString (lowerString input1.slug)) :
    r1.slug = trimString (lowerString input1.slug)
    ∧ (createSeoMetadata input2 id2 s1).1
      = Except.error { message := "This slug already exists for this page type and language", code := some "SLUG_EXISTS", statusCode := some 409 }
    ∧ (createSeoMetadata input2 id2 s1).2 = s1 := by
  by_cases hex : seoMetadataExistsBySlug s input1.page_type (trimString (lowerString input1.slug))
      input1.lang = true
  · exfalso
    simp [createSeoMetadata, hex] at h1
  · rw [Bool.not_eq_true] at hex
    have hr : r1 = { id := id1, page_type := input1.page_type, page_id := input1.page_id, slug := trimString (lowerString input1.slug), lang := input1.lang, title := trimString input1.title, description := trimString input1.description, og_image := cleanOgImage input1.og_image } := by
      have := h1
      simp [createSeoMetadata, hex] at this
      exact this.1.symm
    have hs1 : s1 = { s with seo_metadata := s.seo_metadata
        ++ [{ id := id1, page_type := input1.page_type, page_id := input1.page_id, slug := trimString (lowerString input1.slug), lang := input1.lang, title := trimString input1.title, description := trimString input1.description, og_image := cleanOgImage input1.og_image }] } := by
      have := h1
      simp [createSeoMetadata, hex] at this
      exact this.2.symm
    have hex2 : seoMetadataExistsBySlug s1 input2.page_type (trimString (lowerString input2.slug))
        input2.lang = true := by
      rw [hs1, hpt, hlang, hslug]
      simp [seoMetadataExistsBySlug]
    refine ⟨by rw [hr], ?_, ?_⟩
    · simp [createSeoMetadata, hex2]
    · simp [createSeoMetadata, hex2]

/-- Witness for claim C10: a slug differing only in letter case and
surrounding whitespace from an already-stored one collides with it. -/
theorem createSeoMetadata_normalizes_slug_witness :
    createSeoMetadata { page_type := "room", page_id := some "r1", slug := "  Deluxe-Room ", lang := "en", title := "T one", description := "D one" } "sA" ({} : Store)
      = (Except.ok { id := "sA", page_type := "room", page_id := some "r1", slug := "deluxe-room", lang := "en", title := "T one", description := "D one", og_image := none }, { seo_metadata := [{ id := "sA", page_type := "room", page_id := some "r1", slug := "deluxe-room", lang := "en", title := "T one", description := "D one", og_image := none }] })
    ∧ (createSeoMetadata { page_type := "room", page_id := some "r2", slug := "deluxe-room", lang := "en", title := "T two", description := "D two" } "sB"
        { seo_metadata := [{ id := "sA", page_type := "room", page_id := some "r1", slug := "deluxe-room", lang := "en", title := "T one", description := "D one", og_image := none }] }).1
      = Except.error { message := "This slug already exists for this page type and language", code := some "SLUG_EXISTS", statusCode := some 409 } :=
  ⟨rfl,
   (createSeoMetadata_normalizes_slug
      { page_type := "room", page_id := some "r1", slug := "  Deluxe-Room ", lang := "en", title := "T one", description := "D one" }
      { page_type := "room", page_id := some "r2", slug := "deluxe-room", lang := "en", title := "T two", description := "D two" }
      "sA" "sB" ({} : Store)
      { seo_metadata := [{ id := "sA", page_type := "room", page_id := some "r1", slug := "deluxe-room", lang := "en", title := "T one", description := "D one", og_image := none }] }
      { id := "sA", page_type := "room", page_id := some "r1", slug := "deluxe-room", lang := "en", title := "T one", description := "D one", og_image := none }
      rfl rfl rfl (by decide)).2.1⟩

/-- `validateQueryLimit` from validators/common.query.validator.js:
`query("limit").optional().isInt({ min: 1, max })`.  The query value is
modelled after integer parsing; `none` means the parameter is absent. -/
def queryLimitAccepted (max : Nat) (limit : Option Int) : Bool :=
  match limit with
  | none => true
  | some v => decide (1 ≤ v) && decide (v ≤ (max : Int))

/-- validators/room/room-list.validator.js installs `validateQueryLimit(50)`
for GET /api/room/list. -/
def roomListLimitMax : Nat := 50

/-- `validateQueryOffset`: optional, `isInt({ min: 0 })`. -/
def queryOffsetAccepted (offset : Option Int) : Bool :=
  match offset with
  | none => true
  | some v => decide (0 ≤ v)

/-- The JavaScript `x || d` default on an optional parsed integer (`0` is
falsy and also falls back to the default). -/
def jsOrInt (v : Option Int) (d : Int) : Int :=
  match v with
  | none => d
  | some x => if x == 0 then d else x

/-- controllers/room/room-list.controller.js: `limit: limit || 20`. -/
def roomListEffectiveLimit (limit : Option Int) : Int := jsOrInt limit 20

/-- controllers/room/room-list.controller.js: `offset: offset || 0`. -/
def roomListEffectiveOffset (offset : Option Int) : Int := jsOrInt offset 0

/-- Counterexample to claim C8 as stated: the room-list validator passes 50,
not 100, as the maximum, so `limit = 100` (an integer between 1 and 100) is
rejected. -/
theorem roomList_limit_100_rejected :
    queryLimitAccepted roomListLimitMax (some 100) = false ∧ roomListLimitMax = 50 := by
  decide

/-- Claim C8 (amended): for GET /api/room/list a missing limit defaults to 20
and a missing offset defaults to 0, and every integer limit from 1 up to the
maximum of 50 is accepted while values above 50 are rejected by
validation. -/
theorem roomList_pagination_defaults_and_range :
    roomListEffectiveLimit none = 20
    ∧ roomListEffectiveOffset none = 0
    ∧ (∀ v : Int, 1 ≤ v → v ≤ 50 → queryLimitAccepted roomListLimitMax (some v) = true)
    ∧ (∀ v : Int, 50 < v → queryLimitAccepted roomListLimitMax (some v) = false) := by
  refine ⟨rfl, rfl, ?_, ?_⟩
  · intro v h1 h2
    simp [queryLimitAccepted, roomListLimitMax, h1, h2]
  · intro v hv
    simp [queryLimitAccepted, roomListLimitMax]
    intro h1
    omega

/-- Witness for the amended claim C8 at the boundary values 50 and 51. -/
theorem roomList_pagination_defaults_and_range_witness :
    ((1 : Int) ≤ 50 ∧ queryLimitAccepted roomListLimitMax (some 50) = true)
    ∧ ((50 : Int) < 51 ∧ queryLimitAccepted roomListLimitMax (some 51) = false) :=
  ⟨⟨by decide, roomList_pagination_defaults_and_range.2.2.1 50 (by decide) (by decide)⟩,
   ⟨by decide, roomList_pagination_defaults_and_range.2.2.2 51 (by decide)⟩⟩

/-- The pagination object built by `getRoomsByHotelSlug`
(repositories/room/room-list.repository.js). -/
structure RoomPagination where
  total : Nat
  limit : Nat
  offset : Nat
  current_page : Nat
  total_pages : Nat
  has_more : Bool
deriving Repr, DecidableEq

/-- The result object of `getRoomsByHotelSlug`.  The rooms are the selected
`rooms` rows; the per-room decoration of steps 4–7 of the source (amenity
options and SEO slugs) is a per-element map that changes neither the
selection, the order, nor the counts, and is not modelled. -/
structure RoomListResult where
  hotel : HotelRow
  rooms : List RoomRow
  pagination : RoomPagination
deriving Repr, DecidableEq

/-- The ordering used by `.order("name_en")`. -/
def roomNameLe (a b : RoomRow) : Prop := a.name_en ≤ b.name_en

instance : DecidableRel roomNameLe :=
  fun a b => inferInstanceAs (Decidable (a.name_en ≤ b.name_en))

instance : IsTotal RoomRow roomNameLe := ⟨fun a b => le_total a.name_en b.name_en⟩

instance : IsTrans RoomRow roomNameLe := ⟨fun _ _ _ h1 h2 => le_trans h1 h2⟩

/-- `getRoomsByHotelSlug` from repositories/room/room-list.repository.js:
resolve the hotel id from the first `seo_metadata` row with
`page_type = "hotel"` and the given slug (404 `HOTEL_NOT_FOUND` otherwise);
load the hotel row (a raw store error when the `single()` lookup finds no
row); select the hotel's rooms with `is_active = true`, ordered by `name_en`,
windowed by `.range(offset, offset + limit - 1)` with an exact count of the
filtered rows; when the window is empty, return an empty list with a zeroed
pagination block, otherwise the window with
`total = count`, `current_page = floor(offset/limit) + 1`,
`total_pages = ceil(count/limit)` and `has_more = offset + limit < count`. -/
def getRoomsByHotelSlug (s : Store) (hotelSlug : String) (limit offset : Nat) :
    Except AppError RoomListResult :=
  match (s.seo_metadata.filter (fun r => r.page_type == "hotel" && r.slug == hotelSlug)).head? with
  | none =>
    .error { message := "Hotel not found", code := some "HOTEL_NOT_FOUND", statusCode := some 404 }
  | some seoRow =>
    match s.hotels.find? (fun h => some h.id == seoRow.page_id) with
    | none => .error { message := "Hotel row lookup failed" }
    | some hotelInfo =>
      let filtered := s.rooms.filter (fun r => r.hotel_id == hotelInfo.id && r.is_active)
      let sorted := filtered.insertionSort roomNameLe
      let pageRooms := (sorted.drop offset).take limit
      let count := filtered.length
      if pageRooms.isEmpty then
        .ok { hotel := hotelInfo, rooms := [],
              pagination := { total := 0, limit := limit, offset := offset, current_page := 1, total_pages := 0, has_more := false } }
      else
        .ok { hotel := hotelInfo, rooms := pageRooms,
              pagination := { total := count, limit := limit, offset := offset, current_page := offset / limit + 1, total_pages := (count + limit - 1) / limit, has_more := decide (offset + limit < count) } }

/-- Claim C9: a successful room-list query returns only rooms of the resolved
hotel whose `is_active` flag is true, ordered by English name, and its
pagination total never counts an inactive room: it is the number of active
rooms of the hotel when the returned window is non-empty, and zero when the
window is empty. -/
theorem roomList_only_active_sorted
    (s : Store) (hotelSlug : String) (limit offset : Nat) (res : RoomListResult)
    (h : getRoomsByHotelSlug s hotelSlug limit offset = .ok res) :
    (∀ r ∈ res.rooms, r.is_active = true ∧ r.hotel_id = res.hotel.id)
    ∧ res.rooms.Pairwise roomNameLe
    ∧ (res.rooms ≠ [] → res.pagination.total
        = (s.rooms.filter (fun r => r.hotel_id == res.hotel.id && r.is_active)).length)
    ∧ (res.rooms = [] → res.pagination.total = 0) := by
  unfold getRoomsByHotelSlug at h
  split at h
  · exact absurd h (by simp)
  · split at h
    · exact absurd h (by simp)
    · next hotelInfo hfind =>
      dsimp only at h
      split at h
      · next hemp =>
        cases h
        exact ⟨fun r hr => absurd hr (by simp), by simp, fun hne => absurd rfl hne,
          fun _ => rfl⟩
      · next hnemp =>
        cases h
        refine ⟨fun r hr => ?_, ?_, fun _ => rfl, fun hnil => ?_⟩
        · have hr' : r ∈ List.take limit (List.drop offset (List.insertionSort roomNameLe
              (List.filter (fun r => r.hotel_id == hotelInfo.id && r.is_active) s.rooms))) := hr
          have hfilt : r ∈ s.rooms.filter (fun r => r.hotel_id == hotelInfo.id && r.is_active) :=
            (List.perm_insertionSort roomNameLe _).mem_iff.mp
              (List.mem_of_mem_drop (List.mem_of_mem_take hr'))
          have hb := (List.mem_filter.mp hfilt).2
          simp only [Bool.and_eq_true, beq_iff_eq] at hb
          exact ⟨hb.2, hb.1⟩
        · show List.Pairwise roomNameLe (List.take limit (List.drop offset
            (List.insertionSort roomNameLe
              (List.filter (fun r => r.hotel_id == hotelInfo.id && r.is_active) s.rooms))))
          exact List.Pairwise.sublist ((List.take_sublist _ _).trans (List.drop_sublist _ _))
            (List.sorted_insertionSort roomNameLe _)
        · have hnil' : List.take limit (List.drop offset (List.insertionSort roomNameLe
              (List.filter (fun r => r.hotel_id == hotelInfo.id && r.is_active) s.rooms)))
              = [] := hnil
          exact absurd (by rw [hnil']; rfl) hnemp

/-- A store for the room-list witness: one hotel resolved by the slug
`grand`, one active and one inactive room. -/
def c9Store : Store :=
  { hotels := [{ id := "h1", name_th := "HT", name_en := "Grand Hotel" }],
    rooms := [{ id := "rA", name_th := "A-th", name_en := "Alpha", room_size := 20, description_th := "d", description_en := "d", max_adult := 2, max_children := 0, total_room := 3, hotel_id := "h1", is_active := true },
              { id := "rB", name_th := "B-th", name_en := "Beta", room_size := 25, description_th := "d", description_en := "d", max_adult := 2, max_children := 1, total_room := 2, hotel_id := "h1", is_active := false }],
    seo_metadata := [{ id := "s1", page_type := "hotel", page_id := some "h1", slug := "grand", lang := "en", title := "t", description := "d", og_image := none }] }

/-- The result the room-list witness expects: only the active room, total 1. -/
def c9Result : RoomListResult :=
  { hotel := { id := "h1", name_th := "HT", name_en := "Grand Hotel" },
    rooms := [{ id := "rA", name_th := "A-th", name_en := "Alpha", room_size := 20, description_th := "d", description_en := "d", max_adult := 2, max_children := 0, total_room := 3, hotel_id := "h1", is_active := true }],
    pagination := { total := 1, limit := 20, offset := 0, current_page := 1, total_pages := 1, has_more := false } }

/-- Witness for claim C9 on a concrete store with an inactive room. -/
theorem roomList_only_active_sorted_witness :
    getRoomsByHotelSlug c9Store "grand" 20 0 = .ok c9Result
    ∧ (∀ r ∈ c9Result.rooms, r.is_active = true ∧ r.hotel_id = c9Result.hotel.id)
    ∧ (c9Result.rooms ≠ [] → c9Result.pagination.total
        = (c9Store.rooms.filter (fun r => r.hotel_id == c9Result.hotel.id && r.is_active)).length) :=
  ⟨rfl,
   (roomList_only_active_sorted c9Store "grand" 20 0 c9Result rfl).1,
   (roomList_only_active_sorted c9Store "grand" 20 0 c9Result rfl).2.2.1⟩

/-- One entry of the controller's `seoErrors` array:
`{ lang: seo.lang, error: error.message, code: error.code }`. -/
structure SeoErrorEntry where
  lang : String
  error : String
  code : Option String
deriving Repr, DecidableEq

/-- Generated ids for SEO rows created during one request (stands for the
store's uuids; only freshness matters to the embedded operations). -/
def mkSeoId (n : Nat) : String := "seo-" ++ toString n

/-- The SEO fan-out loop of controllers/room/room-create.controller.js: each
`seo_data` entry is attempted via `seoMetadataCreateService.create` with
`page_type = "room"` and `page_id` the created room id, inside its own
try/catch; successes accumulate in `seoResults` and `createdSeoIds`, failures
become `{ lang, error, code }` entries.  Returns
`(seoResults, seoErrors, createdSeoIds, store)`. -/
def seoAttemptLoop (roomId : String) :
    List SeoInput → Nat → Store → List SeoRow × List SeoErrorEntry × List String × Store
  | [], _, s => ([], [], [], s)
  | seo :: rest, n, s =>
    match createSeoMetadata { page_type := "room", page_id := some roomId, slug := seo.slug, lang := seo.lang, title := seo.title, description := seo.description, og_image := seo.og_image } (mkSeoId n) s with
    | (.ok newSeo, s1) =>
      let tail := seoAttemptLoop roomId rest (n + 1) s1
      (newSeo :: tail.1, tail.2.1, newSeo.id :: tail.2.2.1, tail.2.2.2)
    | (.error err, s1) =>
      let tail := seoAttemptLoop roomId rest (n + 1) s1
      (tail.1, { lang := seo.lang, error := err.message, code := err.code } :: tail.2.1, tail.2.2.1, tail.2.2.2)

/-- The `summary` counts of `imageCollectionService.create`. -/
structure ImageSummaryCounts where
  total : Nat
  success : Nat
  failed : Nat
deriving Repr, DecidableEq

/-- One entry of the image service's `errors` array. -/
structure ImageErrorEntry where
  url : String
  error : String
  code : Option String
deriving Repr, DecidableEq

/-- The object `imageCollectionService.create` resolves with on full or
partial success (services/image/image-collection.service.js step 9):
`errors` is present only when some images failed. -/
structure ImageServiceSuccess where
  image_assets : List ImageRow
  errors : Option (List ImageErrorEntry)
  summary : ImageSummaryCounts
deriving Repr, DecidableEq

/-- The `{ error, code }` object the controller's catch builds when the image
batch call throws; it has no `errors`, `image_assets` or `summary` field. -/
structure ImageFailureObj where
  error : String
  code : Option String
deriving Repr, DecidableEq

/-- The duck-typed `imageResults` variable of the room-create controller. -/
inductive ImageResultsObj where
  | success (r : ImageServiceSuccess)
  | failure (e : ImageFailureObj)
deriving Repr, DecidableEq

/-- The JavaScript access `imageResults?.errors`: `undefined` both for a
missing object and for the catch-built failure object, which has no `errors`
field. -/
def imageResultsErrors : Option ImageResultsObj → Option (List ImageErrorEntry)
  | some (.success r) => r.errors
  | _ => none

/-- The JavaScript access `imageResults?.image_assets`. -/
def imageResultsAssets : Option ImageResultsObj → Option (List ImageRow)
  | some (.success r) => some r.image_assets
  | _ => none

/-- The JavaScript access `imageResults?.summary?.success || 0`. -/
def imageResultsSummarySuccess : Option ImageResultsObj → Nat
  | some (.success r) => r.summary.success
  | _ => 0

/-- The JavaScript access `imageResults?.summary?.failed || 0`. -/
def imageResultsSummaryFailed : Option ImageResultsObj → Nat
  | some (.success r) => r.summary.failed
  | _ => 0

/-- The `summary` block of the room-create 2xx response. -/
structure RoomSummary where
  room_created : Bool
  options_linked : Nat
  seasons_created : Nat
  overrides_created : Nat
  seo_created : Nat
  seo_failed : Nat
  images_created : Nat
  images_failed : Nat
deriving Repr, DecidableEq

/-- The observable pieces of the controller's HTTP response: status code,
`success` flag, message, error code, and the optional data fields the source
spreads in conditionally (a `none` models an absent key). -/
structure ControllerResponse where
  status : Nat
  success : Bool
  message : String
  error_code : Option String
  room : Option RoomRow
  base_price : Option BasePriceRow
  seo_metadata : Option (List SeoRow)
  seo_errors : Option (List SeoErrorEntry)
  images : Option (List ImageRow)
  image_errors : Option (List ImageErrorEntry)
  summary : Option RoomSummary
deriving Repr, DecidableEq

/-- The controller's error answer: an error carrying a `statusCode` is
answered directly as `{ success: false, message, error: { code } }`; any
other error goes to `next(error)` and reaches the generic error handler
(middlewares/error-handler.middleware.js), which answers
`err.statusCode || 500` with `err.message || "A system error has occurred."`
and code `err.code || "SERVER_ERROR"`. -/
def controllerCatchResponse (e : AppError) : ControllerResponse :=
  match e.statusCode with
  | some sc =>
    { status := sc, success := false, message := e.message, error_code := e.code, room := none, base_price := none, seo_metadata := none, seo_errors := none, images := none, image_errors := none, summary := none }
  | none =>
    { status := 500, success := false, message := if e.message == "" then "A system error has occurred." else e.message, error_code := some (e.code.getD "SERVER_ERROR"), room := none, base_price := none, seo_metadata := none, seo_errors := none, images := none, image_errors := none, summary := none }

/-- The controller rollback's
`supabase.from("seo_metadata").delete().in("id", createdSeoIds)`. -/
def deleteSeoByIds (s : Store) (ids : List String) : Store :=
  { s with seo_metadata := s.seo_metadata.filter (fun r => !(ids.contains r.id)) }

/-- Injected outcomes for one controller run: the service-level write
outcomes, the resolution of the image batch call (`.error` models the call
throwing, as on its `ALL_DUPLICATES` / `ALL_FAILED` paths), and an injected
failure inside the controller-level cascade delete. -/
structure ControllerOutcomes where
  svc : RoomCreateOutcomes := {}
  imageOutcome : Except AppError ImageServiceSuccess := .ok { image_assets := [], errors := none, summary := { total := 0, success := 0, failed := 0 } }
  ctrlCascadeFailAt : Option Nat := none

/-- Steps 2–6 of the room-create controller, after the service call
succeeded: SEO fan-out, image batch call (its own try/catch turning a throw
into `{ error, code }`), the all-SEO-failed check (a plain `Error` with no
`statusCode`), rollback on throw, response assembly and status selection
(`seoErrors.length > 0 || imageResults?.errors ? 207 : 201`). -/
def roomCreateFanout (oc : ControllerOutcomes) (req : RoomCreateRequest)
    (newRoomId : String) (roomResult : RoomResult) (s1 : Store) :
    ControllerResponse × Store :=
  let seoOut := seoAttemptLoop newRoomId req.seo_data 0 s1
  let seoResults := seoOut.1
  let seoErrors := seoOut.2.1
  let createdSeoIds := seoOut.2.2.1
  let s2 := seoOut.2.2.2
  let imagesStep : Option ImageResultsObj × Store :=
    if req.images.isEmpty then (none, s2)
    else
      match oc.imageOutcome with
      | .ok r => (some (.success r), { s2 with image_assets := s2.image_assets ++ r.image_assets })
      | .error e => (some (.failure { error := e.message, code := e.code }), s2)
  let imageResults := imagesStep.1
  let s3 := imagesStep.2
  if !req.seo_data.isEmpty && seoResults.isEmpty then
    let s4 := deleteSeoByIds s3 createdSeoIds
    let s5 := deleteRoomCascade oc.ctrlCascadeFailAt s4 newRoomId
    (controllerCatchResponse { message := "Failed to create any SEO metadata" }, s5)
  else
    ({ status := if !seoErrors.isEmpty || (imageResultsErrors imageResults).isSome then 207 else 201,
       success := true,
       message := "Room created successfully",
       error_code := none,
       room := some roomResult.room,
       base_price := some roomResult.base_price,
       seo_metadata := if seoResults.isEmpty then none else some seoResults,
       seo_errors := if seoErrors.isEmpty then none else some seoErrors,
       images := imageResultsAssets imageResults,
       image_errors := imageResultsErrors imageResults,
       summary := some { room_created := true, options_linked := roomResult.room_option_ids.length, seasons_created := roomResult.season_base_prices.length, overrides_created := roomResult.override_prices.length, seo_created := seoResults.length, seo_failed := seoErrors.length, images_created := imageResultsSummarySuccess imageResults, images_failed := imageResultsSummaryFailed imageResults } },
     s3)

/-- `createRoom` from controllers/room/room-create.controller.js: delegate
the room and pricing writes to `roomCreateService.create`; on its failure
`createdRoomId` is still null, so the catch answers without controller-level
deletes; on success run the SEO/image fan-out and assemble the response. -/
def createRoomController (oc : ControllerOutcomes) (req : RoomCreateRequest)
    (newRoomId : String) (s : Store) : ControllerResponse × Store :=
  match roomCreateService oc.svc req newRoomId s with
  | (.error e, s1) => (controllerCatchResponse e, s1)
  | (.ok roomResult, s1) => roomCreateFanout oc req newRoomId roomResult s1

/-- A failed SEO creation leaves the store unchanged. -/
theorem createSeoMetadata_error_store (input : SeoCreateInput) (newId : String)
    (s s' : Store) (e : AppError)
    (h : createSeoMetadata input newId s = (.error e, s')) : s' = s := by
  by_cases hex : seoMetadataExistsBySlug s input.page_type
      (trimString (lowerString input.slug)) input.lang = true
  · simp [createSeoMetadata, hex] at h
    exact h.2.symm
  · rw [Bool.not_eq_true] at hex
    simp [createSeoMetadata, hex] at h

/-- An SEO creation only ever touches the `seo_metadata` table. -/
theorem createSeoMetadata_store_fields (input : SeoCreateInput) (newId : String)
    (s : Store) :
    (createSeoMetadata input newId s).2.hotels = s.hotels
    ∧ (createSeoMetadata input newId s).2.rooms = s.rooms
    ∧ (createSeoMetadata input newId s).2.room_options_map = s.room_options_map
    ∧ (createSeoMetadata input newId s).2.room_base_prices = s.room_base_prices
    ∧ (createSeoMetadata input newId s).2.room_season_base_prices = s.room_season_base_prices
    ∧ (createSeoMetadata input newId s).2.room_override_prices = s.room_override_prices
    ∧ (createSeoMetadata input newId s).2.image_assets = s.image_assets := by
  by_cases hex : seoMetadataExistsBySlug s input.page_type
      (trimString (lowerString input.slug)) input.lang = true
  · simp [createSeoMetadata, hex]
  · rw [Bool.not_eq_true] at hex
    simp [createSeoMetadata, hex]

/-- Every `seo_data` entry is attempted and yields exactly one outcome: the
success and failure counts always add up to the number of entries. -/
theorem seoAttemptLoop_counts (roomId : String) (entries : List SeoInput) (n : Nat)
    (s : Store) :
    (seoAttemptLoop roomId entries n s).1.length
      + (seoAttemptLoop roomId entries n s).2.1.length = entries.length := by
  induction entries generalizing n s with
  | nil => rfl
  | cons seo rest ih =>
    cases hc : createSeoMetadata { page_type := "room", page_id := some roomId, slug := seo.slug, lang := seo.lang, title := seo.title, description := seo.description, og_image := seo.og_image } (mkSeoId n) s with
    | mk res s1 =>
      cases res with
      | ok newSeo =>
        have := ih (n + 1) s1
        simp only [seoAttemptLoop, hc, List.length_cons]
        omega
      | error err =>
        have := ih (n + 1) s1
        simp only [seoAttemptLoop, hc, List.length_cons]
        omega

/-- Every collected SEO failure entry names the language of one of the
submitted entries. -/
theorem seoAttemptLoop_lang_mem (roomId : String) (entries : List SeoInput) (n : Nat)
    (s : Store) :
    ∀ err ∈ (seoAttemptLoop roomId entries n s).2.1,
      err.lang ∈ entries.map (fun seo => seo.lang) := by
  induction entries generalizing n s with
  | nil => intro err h; simp [seoAttemptLoop] at h
  | cons seo rest ih =>
    intro err herr
    cases hc : createSeoMetadata { page_type := "room", page_id := some roomId, slug := seo.slug, lang := seo.lang, title := seo.title, description := seo.description, og_image := seo.og_image } (mkSeoId n) s with
    | mk res s1 =>
      cases res with
      | ok newSeo =>
        simp only [seoAttemptLoop, hc] at herr
        exact List.mem_cons_of_mem _ (ih (n + 1) s1 err herr)
      | error e =>
        simp only [seoAttemptLoop, hc, List.mem_cons] at herr
        rcases herr with herr | herr
        · subst herr; exact List.mem_cons_self _ _
        · exact List.mem_cons_of_mem _ (ih (n + 1) s1 err herr)

/-- When no SEO entry succeeded, the loop created no ids and left the store
unchanged. -/
theorem seoAttemptLoop_all_failed (roomId : String) (entries : List SeoInput) (n : Nat)
    (s : Store) (h : (seoAttemptLoop roomId entries n s).1 = []) :
    (seoAttemptLoop roomId entries n s).2.2.1 = []
    ∧ (seoAttemptLoop roomId entries n s).2.2.2 = s := by
  induction entries generalizing n s with
  | nil => exact ⟨rfl, rfl⟩
  | cons seo rest ih =>
    cases hc : createSeoMetadata { page_type := "room", page_id := some roomId, slug := seo.slug, lang := seo.lang, title := seo.title, description := seo.description, og_image := seo.og_image } (mkSeoId n) s with
    | mk res s1 =>
      cases res with
      | ok newSeo =>
        exfalso
        simp only [seoAttemptLoop, hc] at h
        exact List.cons_ne_nil _ _ h
      | error e =>
        have hs1 : s1 = s := createSeoMetadata_error_store _ _ _ _ _ hc
        simp only [seoAttemptLoop, hc] at h ⊢
        rw [hs1] at h ⊢
        exact ih (n + 1) s h

/-- The SEO loop never touches the room, option, price or image tables. -/
theorem seoAttemptLoop_preserves (roomId : String) (entries : List SeoInput) (n : Nat)
    (s : Store) :
    (seoAttemptLoop roomId entries n s).2.2.2.rooms = s.rooms
    ∧ (seoAttemptLoop roomId entries n s).2.2.2.room_options_map = s.room_options_map
    ∧ (seoAttemptLoop roomId entries n s).2.2.2.room_base_prices = s.room_base_prices
    ∧ (seoAttemptLoop roomId entries n s).2.2.2.room_season_base_prices
      = s.room_season_base_prices
    ∧ (seoAttemptLoop roomId entries n s).2.2.2.room_override_prices
      = s.room_override_prices := by
  induction entries generalizing n s with
  | nil => exact ⟨rfl, rfl, rfl, rfl, rfl⟩
  | cons seo rest ih =>
    cases hc : createSeoMetadata { page_type := "room", page_id := some roomId, slug := seo.slug, lang := seo.lang, title := seo.title, description := seo.description, og_image := seo.og_image } (mkSeoId n) s with
    | mk res s1 =>
      have hf := createSeoMetadata_store_fields { page_type := "room", page_id := some roomId, slug := seo.slug, lang := seo.lang, title := seo.title, description := seo.description, og_image := seo.og_image } (mkSeoId n) s
      rw [hc] at hf
      cases res with
      | ok newSeo =>
        have := ih (n + 1) s1
        simp only [seoAttemptLoop, hc]
        exact ⟨this.1.trans hf.2.1, this.2.1.trans hf.2.2.1, this.2.2.1.trans hf.2.2.2.1,
          this.2.2.2.1.trans hf.2.2.2.2.1, this.2.2.2.2.trans hf.2.2.2.2.2.1⟩
      | error e =>
        have := ih (n + 1) s1
        simp only [seoAttemptLoop, hc]
        exact ⟨this.1.trans hf.2.1, this.2.1.trans hf.2.2.1, this.2.2.1.trans hf.2.2.2.1,
          this.2.2.2.1.trans hf.2.2.2.2.1, this.2.2.2.2.trans hf.2.2.2.2.2.1⟩

/-- Deleting an empty id list is a no-op. -/
theorem deleteSeoByIds_nil (s : Store) : deleteSeoByIds s [] = s := by
  simp [deleteSeoByIds]

/-- The store state after the five writes of a fully successful
`createRoom` service call. -/
def roomCreateSuccessStore (req : RoomCreateRequest) (newRoomId : String) (s : Store) :
    Store :=
  { s with rooms := s.rooms ++ [mkRoomRow req.room_data newRoomId], room_options_map := s.room_options_map ++ mkOptionRows newRoomId req.room_option_ids, room_base_prices := s.room_base_prices ++ [mkBasePriceRow newRoomId req.base_price], room_season_base_prices := s.room_season_base_prices ++ mkSeasonRows newRoomId req.season_base_prices, room_override_prices := s.room_override_prices ++ mkOverrideRows newRoomId req.override_prices }

/-- When validation passes and no write fails, the room-create service
returns the created aggregate and the success store. -/
theorem roomCreateService_success (oc : RoomCreateOutcomes) (req : RoomCreateRequest)
    (newRoomId : String) (s : Store)
    (hHotel : hotelExists s req.room_data.hotel_id = true)
    (hName : roomNameExists s req.room_data.name_th req.room_data.name_en
      req.room_data.hotel_id = false)
    (hOpts : validateRoomOptionIds s req.room_option_ids = true)
    (hri : oc.roomInsertError = none) (hoi : oc.optionsInsertError = none)
    (hbi : oc.basePriceError = none) (hsi : oc.seasonInsertError = none)
    (hvi : oc.overrideInsertError = none) :
    roomCreateService oc req newRoomId s =
      (.ok { room := mkRoomRow req.room_data newRoomId, base_price := mkBasePriceRow newRoomId req.base_price, season_base_prices := mkSeasonRows newRoomId req.season_base_prices, override_prices := mkOverrideRows newRoomId req.override_prices, room_option_ids := req.room_option_ids },
       roomCreateSuccessStore req newRoomId s) := by
  simp [roomCreateService, roomCreateSuccessStore, hHotel, hName, hOpts, hri, hoi, hbi,
    hsi, hvi]

/-- A non-empty list is not `isEmpty`. -/
theorem isEmpty_false_of_ne_nil {α : Type} {l : List α} (h : l ≠ []) :
    l.isEmpty = false := by
  cases l with
  | nil => exact absurd rfl h
  | cons a t => rfl

/-- When every SEO entry failed, the fan-out answers with the plain
"Failed to create any SEO metadata" error and, when the cascade does not
fail, the rollback removes every row keyed to the new room id. -/
theorem roomCreateFanout_all_seo_failed (oc : ControllerOutcomes)
    (req : RoomCreateRequest) (newRoomId : String) (roomResult : RoomResult) (s1 : Store)
    (hseo : req.seo_data ≠ [])
    (hfail : (seoAttemptLoop newRoomId req.seo_data 0 s1).1 = []) :
    (roomCreateFanout oc req newRoomId roomResult s1).1
      = controllerCatchResponse { message := "Failed to create any SEO metadata" }
    ∧ (oc.ctrlCascadeFailAt = none →
        (roomCreateFanout oc req newRoomId roomResult s1).2.rooms.filter
          (fun r => r.id == newRoomId) = []
        ∧ (roomCreateFanout oc req newRoomId roomResult s1).2.room_options_map.filter
          (fun r => r.room_id == newRoomId) = []
        ∧ (roomCreateFanout oc req newRoomId roomResult s1).2.room_base_prices.filter
          (fun r => r.room_id == newRoomId) = []
        ∧ (roomCreateFanout oc req newRoomId roomResult s1).2.room_season_base_prices.filter
          (fun r => r.room_id == newRoomId) = []
        ∧ (roomCreateFanout oc req newRoomId roomResult s1).2.room_override_prices.filter
          (fun r => r.room_id == newRoomId) = []
        ∧ (roomCreateFanout oc req newRoomId roomResult s1).2.seo_metadata.filter
          (fun r => r.page_type == "room" && r.page_id == some newRoomId) = []) := by
  have h1 : req.seo_data.isEmpty = false := isEmpty_false_of_ne_nil hseo
  have hids : (seoAttemptLoop newRoomId req.seo_data 0 s1).2.2.1 = [] :=
    (seoAttemptLoop_all_failed newRoomId req.seo_data 0 s1 hfail).1
  by_cases hi : req.images.isEmpty
  · constructor
    · simp [roomCreateFanout, hi, h1, hfail, hids, deleteSeoByIds_nil]
    · intro hc
      have heq : (roomCreateFanout oc req newRoomId roomResult s1).2 =
          deleteRoomCascade none ((seoAttemptLoop newRoomId req.seo_data 0 s1).2.2.2)
            newRoomId := by
        simp [roomCreateFanout, hi, h1, hfail, hids, deleteSeoByIds_nil, hc]
      rw [heq]
      exact deleteRoomCascade_none_clears _ _
  · cases hio : oc.imageOutcome with
    | ok r =>
      constructor
      · simp [roomCreateFanout, hi, hio, h1, hfail, hids, deleteSeoByIds_nil]
      · intro hc
        have heq : (roomCreateFanout oc req newRoomId roomResult s1).2 =
            deleteRoomCascade none
              { (seoAttemptLoop newRoomId req.seo_data 0 s1).2.2.2 with image_assets := ((seoAttemptLoop newRoomId req.seo_data 0 s1).2.2.2).image_assets ++ r.image_assets }
              newRoomId := by
          simp [roomCreateFanout, hi, hio, h1, hfail, hids, deleteSeoByIds_nil, hc]
        rw [heq]
        exact deleteRoomCascade_none_clears _ _
    | error e =>
      constructor
      · simp [roomCreateFanout, hi, hio, h1, hfail, hids, deleteSeoByIds_nil]
      · intro hc
        have heq : (roomCreateFanout oc req newRoomId roomResult s1).2 =
            deleteRoomCascade none ((seoAttemptLoop newRoomId req.seo_data 0 s1).2.2.2)
              newRoomId := by
          simp [roomCreateFanout, hi, hio, h1, hfail, hids, deleteSeoByIds_nil, hc]
        rw [heq]
        exact deleteRoomCascade_none_clears _ _

/-- Claim C2: when `seo_data` is non-empty and every entry fails, the
controller answers with a `success: false` 500 error ("Failed to create any
SEO metadata"), not a 2xx, and — when the compensating deletes succeed — a
subsequent lookup of the room id finds no room row, and no option link,
price tier, or SEO record keyed to it remains either. -/
theorem createRoomController_all_seo_failed
    (oc : ControllerOutcomes) (req : RoomCreateRequest) (newRoomId : String) (s : Store)
    (hHotel : hotelExists s req.room_data.hotel_id = true)
    (hName : roomNameExists s req.room_data.name_th req.room_data.name_en
      req.room_data.hotel_id = false)
    (hOpts : validateRoomOptionIds s req.room_option_ids = true)
    (hri : oc.svc.roomInsertError = none) (hoi : oc.svc.optionsInsertError = none)
    (hbi : oc.svc.basePriceError = none) (hsi : oc.svc.seasonInsertError = none)
    (hvi : oc.svc.overrideInsertError = none)
    (hseo : req.seo_data ≠ [])
    (hfail : (seoAttemptLoop newRoomId req.seo_data 0
      (roomCreateSuccessStore req newRoomId s)).1 = []) :
    (createRoomController oc req newRoomId s).1.success = false
    ∧ (createRoomController oc req newRoomId s).1.status = 500
    ∧ (createRoomController oc req newRoomId s).1.message
      = "Failed to create any SEO metadata"
    ∧ (oc.ctrlCascadeFailAt = none →
        (createRoomController oc req newRoomId s).2.rooms.filter
          (fun r => r.id == newRoomId) = []
        ∧ (createRoomController oc req newRoomId s).2.room_options_map.filter
          (fun r => r.room_id == newRoomId) = []
        ∧ (createRoomController oc req newRoomId s).2.room_base_prices.filter
          (fun r => r.room_id == newRoomId) = []
        ∧ (createRoomController oc req newRoomId s).2.room_season_base_prices.filter
          (fun r => r.room_id == newRoomId) = []
        ∧ (createRoomController oc req newRoomId s).2.room_override_prices.filter
          (fun r => r.room_id == newRoomId) = []
        ∧ (createRoomController oc req newRoomId s).2.seo_metadata.filter
          (fun r => r.page_type == "room" && r.page_id == some newRoomId) = []) := by
  have hsvc := roomCreateService_success oc.svc req newRoomId s hHotel hName hOpts hri hoi
    hbi hsi hvi
  have hctrl : createRoomController oc req newRoomId s =
      roomCreateFanout oc req newRoomId { room := mkRoomRow req.room_data newRoomId, base_price := mkBasePriceRow newRoomId req.base_price, season_base_prices := mkSeasonRows newRoomId req.season_base_prices, override_prices := mkOverrideRows newRoomId req.override_prices, room_option_ids := req.room_option_ids }
        (roomCreateSuccessStore req newRoomId s) := by
    simp only [createRoomController, hsvc]
  have hf := roomCreateFanout_all_seo_failed oc req newRoomId
    { room := mkRoomRow req.room_data newRoomId, base_price := mkBasePriceRow newRoomId req.base_price, season_base_prices := mkSeasonRows newRoomId req.season_base_prices, override_prices := mkOverrideRows newRoomId req.override_prices, room_option_ids := req.room_option_ids }
    (roomCreateSuccessStore req newRoomId s) hseo hfail
  rw [hctrl]
  exact ⟨by rw [hf.1]; rfl, by rw [hf.1]; rfl, by rw [hf.1]; rfl, hf.2⟩

/-- A store for the C2 witness: one hotel and two stale SEO records of
another room occupying the slugs both submitted entries will collide with. -/
def c2Store : Store :=
  { hotels := [{ id := "h1", name_th := "HT", name_en := "Hotel One" }],
    seo_metadata := [{ id := "sX", page_type := "room", page_id := some "other", slug := "dup-a", lang := "en", title := "t", description := "d", og_image := none },
                     { id := "sY", page_type := "room", page_id := some "other", slug := "dup-b", lang := "th", title := "t", description := "d", og_image := none }] }

/-- A request for the C2 witness whose two SEO entries both collide. -/
def c2Req : RoomCreateRequest :=
  { room_data := sampleRoomData, base_price := samplePrices,
    seo_data := [{ slug := "dup-a", lang := "en", title := "Title A", description := "Desc A" },
                 { slug := "dup-b", lang := "th", title := "Title B", description := "Desc B" }] }

/-- Witness for claim C2 on a concrete request with two failing SEO
entries. -/
theorem createRoomController_all_seo_failed_witness :
    (c2Req.seo_data ≠ []
      ∧ (seoAttemptLoop "r1" c2Req.seo_data 0 (roomCreateSuccessStore c2Req "r1" c2Store)).1
        = [])
    ∧ (createRoomController {} c2Req "r1" c2Store).1.success = false
    ∧ (createRoomController {} c2Req "r1" c2Store).1.status = 500
    ∧ (createRoomController {} c2Req "r1" c2Store).2.rooms.filter
        (fun r => r.id == "r1") = [] :=
  ⟨⟨by decide, by decide⟩,
   (createRoomController_all_seo_failed {} c2Req "r1" c2Store (by decide) (by decide)
      (by decide) rfl rfl rfl rfl rfl (by decide) (by decide)).1,
   (createRoomController_all_seo_failed {} c2Req "r1" c2Store (by decide) (by decide)
      (by decide) rfl rfl rfl rfl rfl (by decide) (by decide)).2.1,
   ((createRoomController_all_seo_failed {} c2Req "r1" c2Store (by decide) (by decide)
      (by decide) rfl rfl rfl rfl rfl (by decide) (by decide)).2.2.2 rfl).1⟩

/-- When at least one SEO entry succeeded and at least one failed, the
fan-out answers 207 with the successes under `seo_metadata`, the failures
under `seo_errors`, the created room in the body, and performs no rollback:
the room, option and price tables keep the state the service left. -/
theorem roomCreateFanout_partial (oc : ControllerOutcomes) (req : RoomCreateRequest)
    (newRoomId : String) (roomResult : RoomResult) (s1 : Store)
    (hs : (seoAttemptLoop newRoomId req.seo_data 0 s1).1 ≠ [])
    (hf : (seoAttemptLoop newRoomId req.seo_data 0 s1).2.1 ≠ []) :
    (roomCreateFanout oc req newRoomId roomResult s1).1.status = 207
    ∧ (roomCreateFanout oc req newRoomId roomResult s1).1.success = true
    ∧ (roomCreateFanout oc req newRoomId roomResult s1).1.seo_metadata
      = some (seoAttemptLoop newRoomId req.seo_data 0 s1).1
    ∧ (roomCreateFanout oc req newRoomId roomResult s1).1.seo_errors
      = some (seoAttemptLoop newRoomId req.seo_data 0 s1).2.1
    ∧ (roomCreateFanout oc req newRoomId roomResult s1).1.room = some roomResult.room
    ∧ (roomCreateFanout oc req newRoomId roomResult s1).2.rooms = s1.rooms
    ∧ (roomCreateFanout oc req newRoomId roomResult s1).2.room_options_map
      = s1.room_options_map
    ∧ (roomCreateFanout oc req newRoomId roomResult s1).2.room_base_prices
      = s1.room_base_prices
    ∧ (roomCreateFanout oc req newRoomId roomResult s1).2.room_season_base_prices
      = s1.room_season_base_prices
    ∧ (roomCreateFanout oc req newRoomId roomResult s1).2.room_override_prices
      = s1.room_override_prices := by
  have h1 : (seoAttemptLoop newRoomId req.seo_data 0 s1).1.isEmpty = false :=
    isEmpty_false_of_ne_nil hs
  have h2 : (seoAttemptLoop newRoomId req.seo_data 0 s1).2.1.isEmpty = false :=
    isEmpty_false_of_ne_nil hf
  have hpres := seoAttemptLoop_preserves newRoomId req.seo_data 0 s1
  by_cases hi : req.images.isEmpty
  · refine ⟨?_, ?_, ?_, ?_, ?_, ?_, ?_, ?_, ?_, ?_⟩ <;>
      simp [roomCreateFanout, hi, h1, h2, hpres.1, hpres.2.1, hpres.2.2.1,
        hpres.2.2.2.1, hpres.2.2.2.2]
  · cases hio : oc.imageOutcome with
    | ok r =>
      refine ⟨?_, ?_, ?_, ?_, ?_, ?_, ?_, ?_, ?_, ?_⟩ <;>
        simp [roomCreateFanout, hi, hio, h1, h2, hpres.1, hpres.2.1, hpres.2.2.1,
          hpres.2.2.2.1, hpres.2.2.2.2]
    | error e =>
      refine ⟨?_, ?_, ?_, ?_, ?_, ?_, ?_, ?_, ?_, ?_⟩ <;>
        simp [roomCreateFanout, hi, hio, h1, h2, hpres.1, hpres.2.1, hpres.2.2.1,
          hpres.2.2.2.1, hpres.2.2.2.2]

/-- Claim C3: when `seo_data` is non-empty and at least one entry succeeds
while at least one fails, every entry is attempted (success and failure
counts add to the number of entries), the response is a 207 carrying the
successes in `seo_metadata` and one `seo_errors` entry per failure naming a
submitted language, and the room and its price tiers are retained. -/
theorem createRoomController_partial_seo
    (oc : ControllerOutcomes) (req : RoomCreateRequest) (newRoomId : String) (s : Store)
    (hHotel : hotelExists s req.room_data.hotel_id = true)
    (hName : roomNameExists s req.room_data.name_th req.room_data.name_en
      req.room_data.hotel_id = false)
    (hOpts : validateRoomOptionIds s req.room_option_ids = true)
    (hri : oc.svc.roomInsertError = none) (hoi : oc.svc.optionsInsertError = none)
    (hbi : oc.svc.basePriceError = none) (hsi : oc.svc.seasonInsertError = none)
    (hvi : oc.svc.overrideInsertError = none)
    (hs : (seoAttemptLoop newRoomId req.seo_data 0
      (roomCreateSuccessStore req newRoomId s)).1 ≠ [])
    (hf : (seoAttemptLoop newRoomId req.seo_data 0
      (roomCreateSuccessStore req newRoomId s)).2.1 ≠ []) :
    (createRoomController oc req newRoomId s).1.status = 207
    ∧ (createRoomController oc req newRoomId s).1.seo_metadata
      = some (seoAttemptLoop newRoomId req.seo_data 0
        (roomCreateSuccessStore req newRoomId s)).1
    ∧ (createRoomController oc req newRoomId s).1.seo_errors
      = some (seoAttemptLoop newRoomId req.seo_data 0
        (roomCreateSuccessStore req newRoomId s)).2.1
    ∧ (seoAttemptLoop newRoomId req.seo_data 0
        (roomCreateSuccessStore req newRoomId s)).1.length
      + (seoAttemptLoop newRoomId req.seo_data 0
        (roomCreateSuccessStore req newRoomId s)).2.1.length = req.seo_data.length
    ∧ (∀ err ∈ (seoAttemptLoop newRoomId req.seo_data 0
        (roomCreateSuccessStore req newRoomId s)).2.1,
        err.lang ∈ req.seo_data.map (fun seo => seo.lang))
    ∧ (createRoomController oc req newRoomId s).1.room
      = some (mkRoomRow req.room_data newRoomId)
    ∧ (createRoomController oc req newRoomId s).2.rooms
      = s.rooms ++ [mkRoomRow req.room_data newRoomId]
    ∧ (createRoomController oc req newRoomId s).2.room_base_prices
      = s.room_base_prices ++ [mkBasePriceRow newRoomId req.base_price]
    ∧ (createRoomController oc req newRoomId s).2.room_season_base_prices
      = s.room_season_base_prices ++ mkSeasonRows newRoomId req.season_base_prices
    ∧ (createRoomController oc req newRoomId s).2.room_override_prices
      = s.room_override_prices ++ mkOverrideRows newRoomId req.override_prices := by
  have hsvc := roomCreateService_success oc.svc req newRoomId s hHotel hName hOpts hri hoi
    hbi hsi hvi
  have hctrl : createRoomController oc req newRoomId s =
      roomCreateFanout oc req newRoomId { room := mkRoomRow req.room_data newRoomId, base_price := mkBasePriceRow newRoomId req.base_price, season_base_prices := mkSeasonRows newRoomId req.season_base_prices, override_prices := mkOverrideRows newRoomId req.override_prices, room_option_ids := req.room_option_ids }
        (roomCreateSuccessStore req newRoomId s) := by
    simp only [createRoomController, hsvc]
  have hp := roomCreateFanout_partial oc req newRoomId
    { room := mkRoomRow req.room_data newRoomId, base_price := mkBasePriceRow newRoomId req.base_price, season_base_prices := mkSeasonRows newRoomId req.season_base_prices, override_prices := mkOverrideRows newRoomId req.override_prices, room_option_ids := req.room_option_ids }
    (roomCreateSuccessStore req newRoomId s) hs hf
  rw [hctrl]
  refine ⟨hp.1, hp.2.2.1, hp.2.2.2.1,
    seoAttemptLoop_counts newRoomId req.seo_data 0 (roomCreateSuccessStore req newRoomId s),
    seoAttemptLoop_lang_mem newRoomId req.seo_data 0 (roomCreateSuccessStore req newRoomId s),
    hp.2.2.2.2.1, ?_, ?_, ?_, ?_⟩
  · rw [hp.2.2.2.2.2.1]; rfl
  · rw [hp.2.2.2.2.2.2.2.1]; rfl
  · rw [hp.2.2.2.2.2.2.2.2.1]; rfl
  · rw [hp.2.2.2.2.2.2.2.2.2]; rfl

/-- A store for the C3 witness: one hotel and one stale SEO record occupying
the slug of the first submitted entry. -/
def c3Store : Store :=
  { hotels := [{ id := "h1", name_th := "HT", name_en := "Hotel One" }],
    seo_metadata := [{ id := "sX", page_type := "room", page_id := some "other", slug := "dup-a", lang := "en", title := "t", description := "d", og_image := none }] }

/-- A request for the C3 witness: the first SEO entry collides, the second
succeeds. -/
def c3Req : RoomCreateRequest :=
  { room_data := sampleRoomData, base_price := samplePrices,
    seo_data := [{ slug := "dup-a", lang := "en", title := "Title A", description := "Desc A" },
                 { slug := "fresh-b", lang := "th", title := "Title B", description := "Desc B" }] }

/-- Witness for claim C3 on a concrete request with one failing and one
succeeding SEO entry. -/
theorem createRoomController_partial_seo_witness :
    ((seoAttemptLoop "r1" c3Req.seo_data 0 (roomCreateSuccessStore c3Req "r1" c3Store)).1
        ≠ []
      ∧ (seoAttemptLoop "r1" c3Req.seo_data 0 (roomCreateSuccessStore c3Req "r1" c3Store)).2.1
        ≠ [])
    ∧ (createRoomController {} c3Req "r1" c3Store).1.status = 207
    ∧ (createRoomController {} c3Req "r1" c3Store).2.rooms
      = c3Store.rooms ++ [mkRoomRow c3Req.room_data "r1"] :=
  ⟨⟨by decide, by decide⟩,
   (createRoomController_partial_seo {} c3Req "r1" c3Store (by decide) (by decide)
      (by decide) rfl rfl rfl rfl rfl (by decide) (by decide)).1,
   (createRoomController_partial_seo {} c3Req "r1" c3Store (by decide) (by decide)
      (by decide) rfl rfl rfl rfl rfl (by decide) (by decide)).2.2.2.2.2.2.1⟩

/-- The request of the C4 run: a valid room payload with one image. -/
def c4Req : RoomCreateRequest :=
  { room_data := sampleRoomData, base_price := samplePrices,
    images := [{ url := "https://cdn.example.com/img1.png", is_cover := true }] }

/-- Outcomes of the C4 run: the image batch call throws (here with the
service's own `ALL_FAILED` error, the total-failure path of
services/image/image-collection.service.js). -/
def c4Outcomes : ControllerOutcomes :=
  { imageOutcome := .error { message := "Failed to create any image assets", code := some "ALL_FAILED", statusCode := some 400 } }

/-- Claim C4, evaluated at its failing input: when the image batch call
throws, the room and its mandatory dependents are indeed retained (no
rollback), but the response is a plain 201 success with no `image_errors`,
no `images` key, and `summary.images_failed = 0` — the catch stores the
failure as `{ error, code }` while the response builder and the status
selection read the non-existent `imageResults.errors` field, so the failure
is never reported to the caller. -/
theorem createRoomController_image_throw_unreported :
    (createRoomController c4Outcomes c4Req "r1" sampleStore).1.status = 201
    ∧ (createRoomController c4Outcomes c4Req "r1" sampleStore).1.success = true
    ∧ (createRoomController c4Outcomes c4Req "r1" sampleStore).1.image_errors = none
    ∧ (createRoomController c4Outcomes c4Req "r1" sampleStore).1.images = none
    ∧ ((createRoomController c4Outcomes c4Req "r1" sampleStore).1.summary.map
        (fun sm => sm.images_failed)) = some 0
    ∧ ((createRoomController c4Outcomes c4Req "r1" sampleStore).1.summary.map
        (fun sm => sm.images_created)) = some 0
    ∧ (createRoomController c4Outcomes c4Req "r1" sampleStore).2.rooms.filter
        (fun r => r.id == "r1")
      = [mkRoomRow c4Req.room_data "r1"]
    ∧ (createRoomController c4Outcomes c4Req "r1" sampleStore).2.room_base_prices.filter
        (fun r => r.room_id == "r1")
      = [mkBasePriceRow "r1" c4Req.base_price] := by
  decide

end FunchHotel
